import Mathlib

/-!
Shallow embedding of the `sysmon` metrics-engine core (C sources) in Lean 4.

Conventions of the embedding:
* C `uint32_t` / `uint64_t` values are `Nat`; where the C code relies on
  wrap-around subtraction of `uint64_t` we use `sub64` (subtraction mod 2^64).
* C `double` values are idealized as `ℚ` (the arithmetic the collectors
  perform on doubles — subtraction of exactly-representable counters,
  multiplication by 100, one division — is modelled exactly).
* Fallible C functions returning `sysmon_result_t` plus out-parameters are
  modelled as functions returning tuples / `Except`.
* OS reads (tick counters, interface byte counters, filesystem statistics)
  are injected as explicit oracle arguments, since their values come from
  outside the program.
-/

namespace Sysmon

/-- `sysmon_result_t` from `include/sysmon/sysmon.h`. -/
inductive sysmon_result where
  | ok
  | invalid_argument
  | io
  | parse
  | not_supported
  | out_of_memory
  | internal
deriving DecidableEq, Repr

/-- `sysmon_metric_type_t`. -/
inductive sysmon_metric_type where
  | double
  | int64
  | uint64
  | string
deriving DecidableEq, Repr

/-- The tagged union `value` of `sysmon_metric_t` (doubles idealized as `ℚ`). -/
inductive metric_value where
  | f64 (q : ℚ)
  | i64 (n : ℤ)
  | u64 (n : ℕ)
  | str (s : String)
deriving DecidableEq, Repr

/-- The type tag carried by a metric value. -/
def metric_value.type : metric_value → sysmon_metric_type
  | .f64 _ => .double
  | .i64 _ => .int64
  | .u64 _ => .uint64
  | .str _ => .string

/-- `sysmon_metric_t`: name, optional unit, typed value. -/
structure sysmon_metric where
  name : String
  unit : Option String
  value : metric_value
deriving DecidableEq, Repr

/-- `struct sysmon_snapshot`: an ordered immutable list of metrics. -/
structure sysmon_snapshot where
  metrics : List sysmon_metric
deriving DecidableEq, Repr

/-- `struct sysmon_snapshot_builder`: the append-only accumulator.
(The `capacity` field of the C struct is amortization bookkeeping with no
observable effect; the observable state is the metric list.) -/
structure sysmon_snapshot_builder where
  metrics : List sysmon_metric
deriving DecidableEq, Repr

/-- `sysmon_snapshot_builder_create`: fresh empty builder. -/
def sysmon_snapshot_builder_create : sysmon_snapshot_builder := ⟨[]⟩

/-- `sysmon_snapshot_builder_add_double`. -/
def sysmon_snapshot_builder_add_double (b : sysmon_snapshot_builder)
    (name : String) (unit : Option String) (v : ℚ) : sysmon_snapshot_builder :=
  ⟨b.metrics ++ [⟨name, unit, .f64 v⟩]⟩

/-- `sysmon_snapshot_builder_add_i64`. -/
def sysmon_snapshot_builder_add_i64 (b : sysmon_snapshot_builder)
    (name : String) (unit : Option String) (v : ℤ) : sysmon_snapshot_builder :=
  ⟨b.metrics ++ [⟨name, unit, .i64 v⟩]⟩

/-- `sysmon_snapshot_builder_add_u64`. -/
def sysmon_snapshot_builder_add_u64 (b : sysmon_snapshot_builder)
    (name : String) (unit : Option String) (v : ℕ) : sysmon_snapshot_builder :=
  ⟨b.metrics ++ [⟨name, unit, .u64 v⟩]⟩

/-- `sysmon_snapshot_builder_add_string` (a NULL value is stored as `""`). -/
def sysmon_snapshot_builder_add_string (b : sysmon_snapshot_builder)
    (name : String) (unit : Option String) (v : Option String) : sysmon_snapshot_builder :=
  ⟨b.metrics ++ [⟨name, unit, .str (v.getD "")⟩]⟩

/-- `sysmon_snapshot_builder_finalize`: moves the accumulated records into a
snapshot and resets the builder to empty (`builder->metrics = NULL; count = 0`). -/
def sysmon_snapshot_builder_finalize (b : sysmon_snapshot_builder) :
    sysmon_snapshot × sysmon_snapshot_builder :=
  (⟨b.metrics⟩, ⟨[]⟩)

/-- `sysmon_snapshot_metric_count` (NULL snapshot modelled as `none`). -/
def sysmon_snapshot_metric_count : Option sysmon_snapshot → Nat
  | none => 0
  | some s => s.metrics.length

/-- `sysmon_snapshot_metric_at`. -/
def sysmon_snapshot_metric_at : Option sysmon_snapshot → Nat → Option sysmon_metric
  | none, _ => none
  | some s, i => if i ≥ s.metrics.length then none else s.metrics[i]?

/-- The scan loop inside `sysmon_snapshot_find`. -/
def find_loop : List sysmon_metric → String → Option sysmon_metric
  | [], _ => none
  | m :: rest, name => if m.name = name then some m else find_loop rest name

/-- `sysmon_snapshot_find` (NULL snapshot / NULL name modelled as `none`). -/
def sysmon_snapshot_find : Option sysmon_snapshot → Option String → Option sysmon_metric
  | none, _ => none
  | some _, none => none
  | some s, some name => find_loop s.metrics name

/-! ## Configuration source (`sysmon_ini`) -/

/-- `sysmon_ini_entry_t`: one `section / key / value` triple of the loaded file. -/
structure sysmon_ini_entry where
  sec : String
  key : String
  value : String
deriving DecidableEq, Repr

/-- `struct sysmon_ini`: ordered list of entries in file order. -/
def sysmon_ini := List sysmon_ini_entry

/-- `sysmon_ini_get`: first entry matching section and key (linear scan). -/
def sysmon_ini_get : sysmon_ini → String → String → Option String
  | [], _, _ => none
  | e :: rest, sec, key =>
    if e.sec = sec ∧ e.key = key then some e.value else sysmon_ini_get rest sec key

/-- `parse_bool`: case-insensitive `{1/0, true/false, yes/no, on/off}`,
anything else (or a missing value) yields the default. -/
def parse_bool : Option String → Bool → Bool
  | none, dflt => dflt
  | some s, dflt =>
    if s = "1" then true
    else if s = "0" then false
    else if s.toLower = "true" then true
    else if s.toLower = "false" then false
    else if s.toLower = "yes" then true
    else if s.toLower = "no" then false
    else if s.toLower = "on" then true
    else if s.toLower = "off" then false
    else dflt

/-- `sysmon_ini_get_bool`. -/
def sysmon_ini_get_bool (ini : sysmon_ini) (sec key : String) (dflt : Bool) : Bool :=
  parse_bool (sysmon_ini_get ini sec key) dflt

/-- Characters accepted by C `isspace` in the default locale. -/
def c_isspace (c : Char) : Bool :=
  c = ' ' ∨ c = '\t' ∨ c = '\n' ∨ c = '\u000b' ∨ c = '\u000c' ∨ c = '\r'

/-- Leading-whitespace skipping performed by `strtoul`. -/
def skip_space : List Char → List Char
  | [] => []
  | c :: rest => if c_isspace c then skip_space rest else c :: rest

/-- Splits off a maximal run of leading decimal digits. -/
def take_digits : List Char → List Char × List Char
  | [] => ([], [])
  | c :: rest =>
    if c.isDigit then
      let (ds, tail) := take_digits rest
      (c :: ds, tail)
    else ([], c :: rest)

/-- Numeric value of a digit run, most significant first. -/
def digits_to_nat : List Char → Nat
  | [] => 0
  | c :: rest => (c.toNat - '0'.toNat) * 10 ^ rest.length + digits_to_nat rest

/-- Outcome of `strtoul(v, &end, 10)`:
`value` is the returned `unsigned long` (64-bit), `erange` whether
`errno == ERANGE`, `consumed` whether `end != v`, `rest` the tail `end`
points at. -/
structure strtoul_out where
  value : Nat
  erange : Bool
  consumed : Bool
  rest : List Char
deriving DecidableEq, Repr

/-- `strtoul` with base 10 on a NUL-terminated string (64-bit `unsigned long`):
optional whitespace, optional sign, a digit run; overflow clamps to
`ULONG_MAX` and sets `ERANGE`; a leading `-` negates modulo `2^64`. -/
def strtoul10 (cs : List Char) : strtoul_out :=
  let cs1 := skip_space cs
  let signed : Bool × List Char :=
    match cs1 with
    | '-' :: t => (true, t)
    | '+' :: t => (false, t)
    | _ => (false, cs1)
  let (ds, tail) := take_digits signed.2
  if ds = [] then ⟨0, false, false, cs⟩
  else
    let m := digits_to_nat ds
    if m > 2 ^ 64 - 1 then ⟨2 ^ 64 - 1, true, true, tail⟩
    else ⟨if signed.1 then (2 ^ 64 - m) % 2 ^ 64 else m, false, true, tail⟩

/-- `sysmon_ini_get_u32`: returns `(value, ok)`; `ok = false` iff the value is
present, non-empty and fails to parse as a `uint32` (ERANGE, no digits,
trailing garbage, or `> 0xffffffff`). -/
def sysmon_ini_get_u32 (ini : sysmon_ini) (sec key : String) (dflt : Nat) : Nat × Bool :=
  match sysmon_ini_get ini sec key with
  | none => (dflt, true)
  | some v =>
    if v.data = [] then (dflt, true)
    else
      let r := strtoul10 v.data
      if r.erange ∨ ¬ r.consumed ∨ r.rest ≠ [] ∨ r.value > 0xffffffff then (dflt, false)
      else (r.value, true)

/-- `sysmon_config_load_from_ini`: global `[sysmon] interval_ms`, default 1000,
parse failure or 0 is a `Parse` error. -/
def sysmon_config_load_from_ini (ini : sysmon_ini) : Except (sysmon_result × String) Nat :=
  let r := sysmon_ini_get_u32 ini "sysmon" "interval_ms" 1000
  if ¬ r.2 ∨ r.1 = 0 then .error (.parse, "invalid sysmon.interval_ms (must be an integer > 0)")
  else .ok r.1

/-! ## Module abstraction and engine -/

/-- `uint64_t` subtraction `a - b` with wrap-around modulo `2^64`
(assumes `a < 2^64`; `b` is reduced). -/
def sub64 (a b : Nat) : Nat := (a + 2 ^ 64 - b % 2 ^ 64) % 2 ^ 64

/-- `sysmon_module_vtable_t`, polymorphic in the private state type
(`void *state` in C; `none` models a NULL state pointer).
`create ini sec = (rc, state, err)`;
`poll state now_ms refresh_now = (rc, state', metrics appended to the shared
builder before returning, err)`. -/
structure sysmon_module_vtable (σ : Type) where
  name : String
  create : sysmon_ini → String → sysmon_result × Option σ × Option String
  poll : Option σ → Nat → Bool → sysmon_result × Option σ × List sysmon_metric × Option String

/-- `sysmon_module_instance_t`. -/
structure sysmon_module_instance (σ : Type) where
  vtable : sysmon_module_vtable σ
  state : Option σ
  enabled : Bool
  refresh_ms : Nat
  last_refresh_ms : Nat

/-- `struct sysmon`: resolved config, ordered module instances, last error. -/
structure sysmon (σ : Type) where
  interval_ms : Nat
  modules : List (sysmon_module_instance σ)
  last_error : Option String

/-- The `refresh_now` condition computed by `sysmon_poll` for one module:
`refresh_ms == 0 || last_refresh_ms == 0 || now_ms - last_refresh_ms >= refresh_ms`
(the subtraction is `uint64_t` arithmetic). -/
def refresh_due (inst : sysmon_module_instance σ) (now_ms : Nat) : Bool :=
  (inst.refresh_ms == 0) || (inst.last_refresh_ms == 0) ||
    (decide (inst.refresh_ms ≤ sub64 now_ms inst.last_refresh_ms))

/-- The synthetic metric appended by `add_module_error`. -/
def module_error_metric (module_name : String) (message : String) : sysmon_metric :=
  ⟨"module." ++ module_name ++ ".error", none, .str message⟩

/-- One invocation of a module's `poll` in a round: what the engine passed. -/
structure poll_invocation where
  module_name : String
  now_ms : Nat
  due : Bool
deriving DecidableEq, Repr

/-- Outcome of the engine's loop body for one module instance. -/
inductive module_step (σ : Type) where
  /-- `!inst->enabled`: the module is skipped, untouched. -/
  | skipped (inst : sysmon_module_instance σ)
  /-- Round continues: updated instance plus metrics this module put in the
  builder (its own emissions plus, on transient failure, the synthetic
  `module.<name>.error` record). -/
  | continued (inst : sysmon_module_instance σ) (emitted : List sysmon_metric)
      (inv : poll_invocation)
  /-- `SYSMON_ERR_OUT_OF_MEMORY`: the round aborts. -/
  | aborted (inst : sysmon_module_instance σ) (message : String) (inv : poll_invocation)

/-- Loop body of `sysmon_poll` for one module instance. -/
def poll_one (now_ms : Nat) (inst : sysmon_module_instance σ) : module_step σ :=
  if inst.enabled then
    let due := refresh_due inst now_ms
    let inv : poll_invocation := ⟨inst.vtable.name, now_ms, due⟩
    let r := inst.vtable.poll inst.state now_ms due
    if r.1 = .ok then
      .continued
        { inst with
          state := r.2.1
          last_refresh_ms := if due then now_ms else inst.last_refresh_ms }
        r.2.2.1 inv
    else if r.1 = .out_of_memory then
      .aborted { inst with state := r.2.1 } ((r.2.2.2).getD "out of memory") inv
    else
      .continued { inst with state := r.2.1 }
        (r.2.2.1 ++ [module_error_metric inst.vtable.name ((r.2.2.2).getD "module error")])
        inv
  else .skipped inst

/-- The loop of `sysmon_poll` over the instance list. Returns the updated
instances, the builder contents, the log of `poll` invocations (a proof
artifact recording which modules were invoked and with which arguments),
and `some message` if an out-of-memory failure aborted the round (in which
case the instances after the failing one are untouched). -/
def poll_modules (now_ms : Nat) :
    List (sysmon_module_instance σ) →
    List (sysmon_module_instance σ) × List sysmon_metric × List poll_invocation × Option String
  | [] => ([], [], [], none)
  | inst :: rest =>
    match poll_one now_ms inst with
    | .skipped inst' =>
      let r := poll_modules now_ms rest
      (inst' :: r.1, r.2.1, r.2.2.1, r.2.2.2)
    | .continued inst' emitted inv =>
      let r := poll_modules now_ms rest
      (inst' :: r.1, emitted ++ r.2.1, inv :: r.2.2.1, r.2.2.2)
    | .aborted inst' msg inv => (inst' :: rest, [], [inv], some msg)

/-- `sysmon_poll`: one round at monotonic time `now_ms` (the clock is read
once and the same value reaches every module). On out-of-memory the builder
is destroyed and no snapshot is produced. -/
def sysmon_poll (s : sysmon σ) (now_ms : Nat) :
    sysmon σ × List poll_invocation × Except sysmon_result sysmon_snapshot :=
  let r := poll_modules now_ms s.modules
  match r.2.2.2 with
  | some msg =>
    ({ s with modules := r.1, last_error := some msg }, r.2.2.1, .error .out_of_memory)
  | none => ({ s with modules := r.1 }, r.2.2.1, .ok ⟨r.2.1⟩)

/-- Loop body of `init_modules` for one builtin vtable: reads
`[module.<name>] enabled / refresh_ms`, then calls `create` when enabled.
`NotSupported` demotes to disabled; a `refresh_ms` parse failure or any other
create failure aborts construction. -/
def init_one (ini : sysmon_ini) (vt : sysmon_module_vtable σ) :
    Except (sysmon_result × String) (sysmon_module_instance σ) :=
  let sec := "module." ++ vt.name
  let enabled := sysmon_ini_get_bool ini sec "enabled" true
  let r := sysmon_ini_get_u32 ini sec "refresh_ms" 0
  if ¬ r.2 then .error (.parse, "invalid refresh_ms (must be uint32)")
  else if ¬ enabled then .ok ⟨vt, none, false, r.1, 0⟩
  else
    let c := vt.create ini sec
    if c.1 = .not_supported then .ok ⟨vt, none, false, r.1, 0⟩
    else if c.1 = .ok then .ok ⟨vt, c.2.1, true, r.1, 0⟩
    else .error (c.1, (c.2.2).getD "module create failed")

/-- `init_modules`: instantiates every builtin variant in order; the first
failure aborts (everything already constructed is released — observably, no
instance list is produced). -/
def init_modules (ini : sysmon_ini) :
    List (sysmon_module_vtable σ) →
    Except (sysmon_result × String) (List (sysmon_module_instance σ))
  | [] => .ok []
  | vt :: rest => do
    let inst ← init_one ini vt
    let insts ← init_modules ini rest
    .ok (inst :: insts)

/-- `sysmon_create` after the ini file has been loaded: loads the global
config, then `init_modules` over the builtin vtable list; any failure yields
no engine. (`builtins == NULL || count == 0` is `SYSMON_ERR_INTERNAL`.) -/
def sysmon_create (ini : sysmon_ini) (builtins : List (sysmon_module_vtable σ)) :
    Except (sysmon_result × String) (sysmon σ) :=
  if builtins.isEmpty then .error (.internal, "no builtin modules")
  else do
    let interval ← sysmon_config_load_from_ini ini
    let insts ← init_modules ini builtins
    .ok ⟨interval, insts, none⟩

/-- The names of the vtables returned by `sysmon_builtin_modules`
(`src/modules/builtin.c`): `modules[0..3] = cpu, ram, battery, network`,
`*out_count = 4`. The `storage` vtable defined in `src/modules/storage.c`
is not registered. -/
def sysmon_builtin_module_names : List String := ["cpu", "ram", "battery", "network"]

/-! ## cpu collector (`src/modules/cpu.c`)

The OS read `read_cpu_ticks` is injected as an oracle argument:
`some (total, idle)` on success, `none` on read failure. -/

/-- `cpu_state_t`. -/
structure cpu_state where
  last_total : Nat
  last_idle : Nat
  last_usage_percent : ℚ
  core_count : Nat
  has_prev : Bool
deriving DecidableEq, Repr

/-- `cpu_create` (state is calloc-zeroed; `core_count` probed once). -/
def cpu_create (core_count : Nat) : cpu_state :=
  ⟨0, 0, 0, core_count, false⟩

/-- The metrics `cpu_poll` emits into the builder. -/
def cpu_emit (st : cpu_state) : List sysmon_metric :=
  ⟨"cpu.usage_percent", some "%", .f64 st.last_usage_percent⟩ ::
    (if st.core_count > 0 then [⟨"cpu.core_count", none, .u64 st.core_count⟩] else [])

/-- `cpu_poll` (on a due refresh, deltas are `uint64_t` subtractions; the
percentage is updated only when `total_delta > 0 && idle_delta <= total_delta`,
otherwise the last valid percentage is kept). -/
def cpu_poll (ticks : Option (Nat × Nat)) (st : cpu_state) (refresh_now : Bool) :
    sysmon_result × cpu_state × List sysmon_metric :=
  if refresh_now || !st.has_prev then
    match ticks with
    | none => (.not_supported, st, [])
    | some (total, idle) =>
      let st1 :=
        if st.has_prev then
          let total_delta := sub64 total st.last_total
          let idle_delta := sub64 idle st.last_idle
          if total_delta > 0 ∧ idle_delta ≤ total_delta then
            { st with
              last_usage_percent := ((total_delta - idle_delta : ℕ) : ℚ) * 100 / total_delta }
          else st
        else { st with has_prev := true }
      let st2 := { st1 with last_total := total, last_idle := idle }
      (.ok, st2, cpu_emit st2)
  else (.ok, st, cpu_emit st)

/-! ## network collector (`src/modules/network.c`)

`read_interface_bytes` is injected as an oracle: `some (rx, tx)` on success. -/

/-- `network_state_t`. -/
structure network_state where
  ifname : String
  include_loopback : Bool
  last_rx_bytes : Nat
  last_tx_bytes : Nat
  last_ts_ms : Nat
  last_rx_rate : ℚ
  last_tx_rate : ℚ
  has_data : Bool
deriving DecidableEq, Repr

/-- `network_create`: resolves the interface once (`probe` is the initial
`read_interface_bytes` outcome, carrying the selected interface name);
counters and rates start at zero, `has_data = false`. -/
def network_create (ini : sysmon_ini) (sec : String) (probe : Option String) :
    sysmon_result × Option network_state :=
  let include_loopback := sysmon_ini_get_bool ini sec "include_loopback" false
  let configured := (sysmon_ini_get ini sec "interface").getD ""
  match probe with
  | none => (.not_supported, none)
  | some selected =>
    let ifname := if configured ≠ "" then configured else selected
    (.ok, some ⟨ifname, include_loopback, 0, 0, 0, 0, 0, false⟩)

/-- The metrics `network_poll` emits into the builder. -/
def network_emit (st : network_state) : List sysmon_metric :=
  [⟨"network.interface", none, .str st.ifname⟩,
   ⟨"network.rx_bytes", some "B", .u64 st.last_rx_bytes⟩,
   ⟨"network.tx_bytes", some "B", .u64 st.last_tx_bytes⟩,
   ⟨"network.rx_bytes_per_sec", some "B/s", .f64 st.last_rx_rate⟩,
   ⟨"network.tx_bytes_per_sec", some "B/s", .f64 st.last_tx_rate⟩]

/-- `network_poll`: on a due refresh with a prior sample and
`now_ms > last_ts_ms`, rate = clamped byte delta / wall-clock elapsed
seconds; otherwise (first sample, or non-advancing clock) rates are 0. -/
def network_poll (counters : Option (Nat × Nat)) (st : network_state)
    (now_ms : Nat) (refresh_now : Bool) :
    sysmon_result × network_state × List sysmon_metric :=
  if refresh_now || !st.has_data then
    match counters with
    | none => (.io, st, [])
    | some (rx, tx) =>
      let st1 :=
        if st.has_data ∧ st.last_ts_ms > 0 ∧ now_ms > st.last_ts_ms then
          let seconds : ℚ := ((sub64 now_ms st.last_ts_ms : ℕ) : ℚ) / 1000
          let rx_delta : Nat := if rx ≥ st.last_rx_bytes then rx - st.last_rx_bytes else 0
          let tx_delta : Nat := if tx ≥ st.last_tx_bytes then tx - st.last_tx_bytes else 0
          { st with
            last_rx_rate := if 0 < seconds then (rx_delta : ℚ) / seconds else 0
            last_tx_rate := if 0 < seconds then (tx_delta : ℚ) / seconds else 0 }
        else { st with last_rx_rate := 0, last_tx_rate := 0 }
      let st2 :=
        { st1 with last_rx_bytes := rx, last_tx_bytes := tx, last_ts_ms := now_ms,
                   has_data := true }
      (.ok, st2, network_emit st2)
  else (.ok, st, network_emit st)

/-! ## storage collector (`src/modules/storage.c`)

`read_storage_stats` is injected as an oracle: `some (total, free, avail)`. -/

/-- `storage_state_t`. -/
structure storage_state where
  path : String
  last_total_bytes : Nat
  last_free_bytes : Nat
  last_avail_bytes : Nat
  last_used_bytes : Nat
  last_used_percent : ℚ
  has_data : Bool
deriving DecidableEq, Repr

/-- `storage_create`: the probed path is the configured `path` key, defaulting
to `"/"` when absent or empty; the initial `statvfs` probe decides
supportedness; cached values start zeroed, `has_data = false`. -/
def storage_create (ini : sysmon_ini) (sec : String) (probe_ok : Bool) :
    sysmon_result × Option storage_state :=
  let path :=
    match sysmon_ini_get ini sec "path" with
    | none => "/"
    | some p => if p = "" then "/" else p
  if probe_ok then (.ok, some ⟨path, 0, 0, 0, 0, 0, false⟩)
  else (.not_supported, none)

/-- The metrics `storage_poll` emits into the builder. -/
def storage_emit (st : storage_state) : List sysmon_metric :=
  [⟨"storage.path", none, .str st.path⟩,
   ⟨"storage.total_bytes", some "B", .u64 st.last_total_bytes⟩,
   ⟨"storage.used_bytes", some "B", .u64 st.last_used_bytes⟩,
   ⟨"storage.free_bytes", some "B", .u64 st.last_free_bytes⟩,
   ⟨"storage.available_bytes", some "B", .u64 st.last_avail_bytes⟩,
   ⟨"storage.used_percent", some "%", .f64 st.last_used_percent⟩]

/-- `storage_poll`: on a due refresh, `used = total >= free ? total - free : 0`
and `used_percent = used * 100 / total` (0 when `total = 0`). -/
def storage_poll (stats : Option (Nat × Nat × Nat)) (st : storage_state)
    (refresh_now : Bool) :
    sysmon_result × storage_state × List sysmon_metric :=
  if refresh_now || !st.has_data then
    match stats with
    | none => (.io, st, [])
    | some (total, free_b, avail) =>
      let used : Nat := if total ≥ free_b then total - free_b else 0
      let st2 : storage_state :=
        { st with
          last_total_bytes := total
          last_free_bytes := free_b
          last_avail_bytes := avail
          last_used_bytes := used
          last_used_percent := if 0 < total then (used : ℚ) * 100 / total else 0
          has_data := true }
      (.ok, st2, storage_emit st2)
  else (.ok, st, storage_emit st)

/-! ## Concrete fixtures (used to instantiate the universally quantified
module behaviors in witnesses) -/

/-- A trivial always-succeeding module over `Unit` state emitting fixed
metrics. -/
def unit_vtable (name : String) (ms : List sysmon_metric) : sysmon_module_vtable Unit :=
  ⟨name, fun _ _ => (.ok, some (), none), fun st _ _ => (.ok, st, ms, none)⟩

/-- A module whose `poll` always fails with the given code, emitting
nothing. -/
def failing_vtable (name : String) (rc : sysmon_result) : sysmon_module_vtable Unit :=
  ⟨name, fun _ _ => (.ok, some (), none), fun st _ _ => (rc, st, [], some "boom")⟩

/-- A module whose `create` reports the platform does not support it. -/
def ns_vtable (name : String) : sysmon_module_vtable Unit :=
  ⟨name, fun _ _ => (.not_supported, none, some "nope"), fun st _ _ => (.ok, st, [], none)⟩

/-- A module whose `create` hard-fails with an I/O error. -/
def bad_create_vtable (name : String) : sysmon_module_vtable Unit :=
  ⟨name, fun _ _ => (.io, none, some "create failed"), fun st _ _ => (.ok, st, [], none)⟩

/-- `name starts with prefix p` for metric names (byte-for-byte, as C
`strncmp(name, p, strlen(p)) == 0` would check). -/
def str_starts_with (p s : String) : Bool := p.data.isPrefixOf s.data

/-- Module instance fixture: refresh_ms 5, last refresh at 10 ms. -/
def c1_test_inst : sysmon_module_instance Unit :=
  ⟨unit_vtable "m" [⟨"m.x", none, .u64 1⟩], some (), true, 5, 10⟩

/-- Enabled cpu-like instance fixture. -/
def c3_cpu_inst : sysmon_module_instance Unit :=
  ⟨unit_vtable "cpu" [⟨"cpu.usage_percent", some "%", .f64 0⟩], some (), true, 0, 0⟩

/-- Enabled instance whose poll fails transiently with `SYSMON_ERR_IO`. -/
def c3_net_inst : sysmon_module_instance Unit :=
  ⟨failing_vtable "net" .io, some (), true, 0, 0⟩

/-- Enabled ram-like instance fixture. -/
def c3_ram_inst : sysmon_module_instance Unit :=
  ⟨unit_vtable "ram" [⟨"ram.used_bytes", some "B", .u64 7⟩], some (), true, 0, 0⟩

/-- Engine fixture with a transiently failing module between two healthy
ones. -/
def c3_test_engine : sysmon Unit := ⟨1000, [c3_cpu_inst, c3_net_inst, c3_ram_inst], none⟩

/-- Engine fixture whose middle module fails with out-of-memory. -/
def c3_oom_engine : sysmon Unit :=
  ⟨1000, [c3_cpu_inst, ⟨failing_vtable "net" .out_of_memory, some (), true, 0, 0⟩,
          c3_ram_inst], none⟩

/-- Engine fixture with battery disabled and one enabled module. -/
def c4_test_engine : sysmon Unit :=
  ⟨1000,
   [⟨unit_vtable "cpu" [⟨"cpu.usage_percent", some "%", .f64 0⟩], some (), true, 0, 0⟩,
    ⟨unit_vtable "battery" [⟨"battery.percent", some "%", .f64 50⟩], some (), false, 0, 0⟩],
   none⟩

/-- Builtin vtable list fixture mirroring `sysmon_builtin_modules`'s names. -/
def c2_test_builtins : List (sysmon_module_vtable Unit) :=
  [unit_vtable "cpu" [], unit_vtable "ram" [], unit_vtable "battery" [],
   unit_vtable "network" []]

/-- The engine `sysmon_create` builds from `c2_test_builtins` and an empty ini. -/
def c2_test_engine : sysmon Unit :=
  ⟨1000,
   [⟨unit_vtable "cpu" [], some (), true, 0, 0⟩,
    ⟨unit_vtable "ram" [], some (), true, 0, 0⟩,
    ⟨unit_vtable "battery" [], some (), true, 0, 0⟩,
    ⟨unit_vtable "network" [], some (), true, 0, 0⟩],
   none⟩

/-! # Theorems -/

/-! ## Snapshot accessor lemmas -/

theorem find_loop_eq_none_iff (l : List sysmon_metric) (name : String) :
    find_loop l name = none ↔ ∀ m ∈ l, m.name ≠ name := by
  induction l with
  | nil => simp [find_loop]
  | cons m0 rest ih =>
    by_cases h : m0.name = name
    · simp [find_loop, h]
    · simp [find_loop, h, ih]

theorem find_loop_first {l : List sysmon_metric} {name : String} {m : sysmon_metric}
    (h : find_loop l name = some m) :
    m.name = name ∧
      ∃ i : Nat, l[i]? = some m ∧
        ∀ j : Nat, j < i → ∀ m' : sysmon_metric, l[j]? = some m' → m'.name ≠ name := by
  induction l with
  | nil => simp [find_loop] at h
  | cons m0 rest ih =>
    rw [find_loop] at h
    by_cases h0 : m0.name = name
    · rw [if_pos h0] at h
      injection h with h
      subst h
      exact ⟨h0, 0, by simp, fun j hj => absurd hj (Nat.not_lt_zero j)⟩
    · rw [if_neg h0] at h
      obtain ⟨hm, i, hi, hfirst⟩ := ih h
      refine ⟨hm, i + 1, by simpa using hi, ?_⟩
      intro j hj m' hj'
      cases j with
      | zero =>
        simp only [List.getElem?_cons_zero, Option.some.injEq] at hj'
        subst hj'
        exact h0
      | succ j => exact hfirst j (by omega) m' (by simpa using hj')

/-- C9: Builder round-trip — after adding `x.a` (double 1.5, unit `u`) and
`x.b` (uint64 42) and finalizing, indexed reads and exact-name lookups agree
on names, units, type tags and values in insertion order; and `finalize`
transfers all accumulated records into the snapshot leaving the builder with
zero metrics. -/
theorem c9_builder_roundtrip :
    (∀ b : sysmon_snapshot_builder,
        (sysmon_snapshot_builder_finalize b).1.metrics = b.metrics ∧
        (sysmon_snapshot_builder_finalize b).2.metrics = []) ∧
    (let b := sysmon_snapshot_builder_add_u64
        (sysmon_snapshot_builder_add_double sysmon_snapshot_builder_create
          "x.a" (some "u") (3 / 2))
        "x.b" none 42
     let r := sysmon_snapshot_builder_finalize b
     sysmon_snapshot_metric_count (some r.1) = 2 ∧
     sysmon_snapshot_metric_at (some r.1) 0 = some ⟨"x.a", some "u", .f64 (3 / 2)⟩ ∧
     sysmon_snapshot_metric_at (some r.1) 1 = some ⟨"x.b", none, .u64 42⟩ ∧
     sysmon_snapshot_find (some r.1) (some "x.a") = sysmon_snapshot_metric_at (some r.1) 0 ∧
     sysmon_snapshot_find (some r.1) (some "x.b") = sysmon_snapshot_metric_at (some r.1) 1 ∧
     (sysmon_snapshot_metric_at (some r.1) 0).map (fun m => m.value.type) = some .double ∧
     (sysmon_snapshot_metric_at (some r.1) 1).map (fun m => m.value.type) = some .uint64 ∧
     r.2.metrics = []) :=
  ⟨fun _ => ⟨rfl, rfl⟩, ⟨rfl, rfl, rfl, rfl, rfl, rfl, rfl, rfl⟩⟩

/-- C10: totality of the snapshot read interface — `metric_count` of NULL is
0; `metric_at` is NULL exactly when the snapshot is NULL or the index is out
of range, and otherwise returns the record stored at that index; `find` is
NULL when the snapshot or name is NULL or no metric has that exact name, and
otherwise returns the earliest-inserted (lowest-index) match. -/
theorem c10_snapshot_read_total :
    sysmon_snapshot_metric_count none = 0 ∧
    (∀ (s : Option sysmon_snapshot) (i : Nat),
        sysmon_snapshot_metric_at s i = none ↔
          (s = none ∨ sysmon_snapshot_metric_count s ≤ i)) ∧
    (∀ (snap : sysmon_snapshot) (i : Nat), i < snap.metrics.length →
        sysmon_snapshot_metric_at (some snap) i = snap.metrics[i]?) ∧
    (∀ n, sysmon_snapshot_find none n = none) ∧
    (∀ s, sysmon_snapshot_find s none = none) ∧
    (∀ (snap : sysmon_snapshot) (name : String),
        (sysmon_snapshot_find (some snap) (some name) = none ↔
          ∀ m ∈ snap.metrics, m.name ≠ name)) ∧
    (∀ (snap : sysmon_snapshot) (name : String) (m : sysmon_metric),
        sysmon_snapshot_find (some snap) (some name) = some m →
        m.name = name ∧
          ∃ i : Nat, snap.metrics[i]? = some m ∧
            ∀ j : Nat, j < i → ∀ m' : sysmon_metric,
              snap.metrics[j]? = some m' → m'.name ≠ name) := by
  refine ⟨rfl, ?_, ?_, fun n => rfl, ?_, ?_, ?_⟩
  · intro s i
    cases s with
    | none => simp [sysmon_snapshot_metric_at, sysmon_snapshot_metric_count]
    | some snap =>
      by_cases h : snap.metrics.length ≤ i
      · simp [sysmon_snapshot_metric_at, sysmon_snapshot_metric_count, h]
      · simp only [sysmon_snapshot_metric_at, sysmon_snapshot_metric_count, ge_iff_le,
          if_neg h]
        simp only [ne_eq, reduceCtorEq, false_or]
        exact List.getElem?_eq_none_iff
  · intro snap i hi
    simp [sysmon_snapshot_metric_at, Nat.not_le.mpr hi]
  · intro s
    cases s <;> rfl
  · intro snap name
    exact find_loop_eq_none_iff snap.metrics name
  · intro snap name m h
    exact find_loop_first h

/-! ## Names of the instantiated modules -/

theorem init_one_vtable {σ : Type} {ini : sysmon_ini} {vt : sysmon_module_vtable σ}
    {inst : sysmon_module_instance σ} (h : init_one ini vt = .ok inst) :
    inst.vtable = vt := by
  simp only [init_one] at h
  split at h
  · exact absurd h (by simp)
  · split at h
    · injection h with h; subst h; rfl
    · split at h
      · injection h with h; subst h; rfl
      · split at h
        · injection h with h; subst h; rfl
        · exact absurd h (by simp)

theorem init_modules_names {σ : Type} (ini : sysmon_ini)
    (vts : List (sysmon_module_vtable σ)) (insts : List (sysmon_module_instance σ))
    (h : init_modules ini vts = .ok insts) :
    insts.map (fun i => i.vtable.name) = vts.map (fun v => v.name) := by
  induction vts generalizing insts with
  | nil =>
    simp only [init_modules, Except.ok.injEq] at h
    subst h
    rfl
  | cons vt rest ih =>
    rw [init_modules] at h
    cases hi : init_one ini vt with
    | error e => rw [hi] at h; exact absurd h (by simp [Bind.bind, Except.bind])
    | ok inst =>
      cases hr : init_modules ini rest with
      | error e => rw [hi, hr] at h; exact absurd h (by simp [Bind.bind, Except.bind])
      | ok insts' =>
        rw [hi, hr] at h
        simp only [Bind.bind, Except.bind, Except.ok.injEq] at h
        subst h
        simp [init_one_vtable hi, ih insts' hr]

/-- C2 (code bug): every engine built from the registry returned by
`sysmon_builtin_modules` — whose vtable names are exactly
`cpu, ram, battery, network` — contains NO storage module instance:
`storage` is absent from the registry, contradicting the spec and the
repository README, which both list storage as a built-in collector
variant. -/
theorem c2_no_storage_module_instance (σ : Type) (ini : sysmon_ini)
    (builtins : List (sysmon_module_vtable σ))
    (hnames : builtins.map (fun v => v.name) = sysmon_builtin_module_names)
    (s : sysmon σ) (hs : sysmon_create ini builtins = .ok s) :
    ("storage" ∉ sysmon_builtin_module_names) ∧
      ∀ inst ∈ s.modules, inst.vtable.name ≠ "storage" := by
  refine ⟨by decide, ?_⟩
  intro inst hmem heq
  unfold sysmon_create at hs
  split at hs
  · exact absurd hs (by simp)
  · cases hc : sysmon_config_load_from_ini ini with
    | error e => rw [hc] at hs; exact absurd hs (by simp [Bind.bind, Except.bind])
    | ok interval =>
      cases hm : init_modules ini builtins with
      | error e => rw [hc, hm] at hs; exact absurd hs (by simp [Bind.bind, Except.bind])
      | ok insts =>
        rw [hc, hm] at hs
        simp only [Bind.bind, Except.bind, Except.ok.injEq] at hs
        subst hs
        have hn := init_modules_names ini builtins insts hm
        rw [hnames] at hn
        have : inst.vtable.name ∈ sysmon_builtin_module_names := by
          rw [← hn]
          exact List.mem_map_of_mem _ hmem
        rw [heq] at this
        exact absurd this (by decide)

/-- Witness for C2 at a concrete configuration: the four-name registry and an
empty ini yield an engine with no storage instance. -/
theorem c2_no_storage_module_instance_witness :
    ("storage" ∉ sysmon_builtin_module_names) ∧
      ∀ inst ∈ c2_test_engine.modules, inst.vtable.name ≠ "storage" :=
  c2_no_storage_module_instance Unit [] c2_test_builtins rfl c2_test_engine rfl

/-- Witness for C10 at a concrete snapshot: in-range indexed access returns
the stored record. -/
theorem c10_snapshot_read_total_witness :
    (0 : Nat) < (sysmon_snapshot.mk [⟨"a", none, .u64 1⟩]).metrics.length ∧
      sysmon_snapshot_metric_at (some ⟨[⟨"a", none, .u64 1⟩]⟩) 0 =
        (sysmon_snapshot.mk [⟨"a", none, .u64 1⟩]).metrics[0]? :=
  ⟨by simp, c10_snapshot_read_total.2.2.1 ⟨[⟨"a", none, .u64 1⟩]⟩ 0 (by simp)⟩

/-! ## Arithmetic helper -/

theorem sub64_eq_sub {a b : Nat} (hba : b ≤ a) (ha : a < 2 ^ 64) :
    sub64 a b = a - b := by
  unfold sub64
  omega

/-! ## cpu: C6 -/

/-- C6: `cpu.usage_percent` stays in `[0, 100]`; the very first refresh only
seeds the tick cache and reports 0; and a refresh observing
`idle_delta > total_delta` or `total_delta = 0` keeps the previously
reported percentage unchanged. -/
theorem c6_cpu_usage_percent :
    (∀ (core_count total idle : Nat),
        (cpu_poll (some (total, idle)) (cpu_create core_count) true).2.1.last_usage_percent
            = 0 ∧
        (cpu_poll (some (total, idle)) (cpu_create core_count) true).2.1.has_prev = true ∧
        (cpu_poll (some (total, idle)) (cpu_create core_count) true).2.2.head?
            = some ⟨"cpu.usage_percent", some "%", .f64 0⟩) ∧
    (∀ (ticks : Option (Nat × Nat)) (st : cpu_state) (refresh_now : Bool),
        0 ≤ st.last_usage_percent → st.last_usage_percent ≤ 100 →
        0 ≤ (cpu_poll ticks st refresh_now).2.1.last_usage_percent ∧
          (cpu_poll ticks st refresh_now).2.1.last_usage_percent ≤ 100 ∧
          ((cpu_poll ticks st refresh_now).1 = .ok →
            (cpu_poll ticks st refresh_now).2.2.head? =
              some ⟨"cpu.usage_percent", some "%",
                .f64 (cpu_poll ticks st refresh_now).2.1.last_usage_percent⟩)) ∧
    (∀ (total idle : Nat) (st : cpu_state), st.has_prev = true →
        (sub64 total st.last_total = 0 ∨
          sub64 total st.last_total < sub64 idle st.last_idle) →
        (cpu_poll (some (total, idle)) st true).2.1.last_usage_percent =
          st.last_usage_percent) := by
  refine ⟨?_, ?_, ?_⟩
  · intro core_count total idle
    exact ⟨rfl, rfl, rfl⟩
  · intro ticks st refresh_now h0 h100
    have key : ∀ (total idle : Nat),
        0 ≤ (cpu_poll (some (total, idle)) st true).2.1.last_usage_percent ∧
          (cpu_poll (some (total, idle)) st true).2.1.last_usage_percent ≤ 100 := by
      intro total idle
      simp only [cpu_poll, Bool.true_or]
      by_cases hp : st.has_prev
      · simp only [hp, if_true]
        by_cases hc : sub64 total st.last_total > 0 ∧
            sub64 idle st.last_idle ≤ sub64 total st.last_total
        · rw [if_pos hc]
          obtain ⟨htd, hid⟩ := hc
          set td := sub64 total st.last_total with htddef
          set id' := sub64 idle st.last_idle with hiddef
          constructor
          · positivity
          · have h2 : (0 : ℚ) < (td : ℚ) := by exact_mod_cast htd
            rw [div_le_iff₀ h2]
            have h1 : ((td - id' : ℕ) : ℚ) ≤ (td : ℚ) := by
              exact_mod_cast Nat.sub_le td id'
            nlinarith
        · rw [if_neg hc]
          exact ⟨h0, h100⟩
      · simp only [hp, if_false]
        exact ⟨h0, h100⟩
    by_cases hr : (refresh_now || !st.has_prev) = true
    · cases ticks with
      | none =>
        simp only [cpu_poll, hr, if_true]
        exact ⟨h0, h100, by intro hok; exact absurd hok (by simp)⟩
      | some p =>
        obtain ⟨total, idle⟩ := p
        have hsame : cpu_poll (some (total, idle)) st refresh_now =
            cpu_poll (some (total, idle)) st true := by
          simp only [cpu_poll, hr, Bool.true_or]
        rw [hsame]
        refine ⟨(key total idle).1, (key total idle).2, ?_⟩
        intro _
        simp only [cpu_poll, Bool.true_or, cpu_emit]
        split <;> rfl
    · simp only [cpu_poll, hr, if_false]
      exact ⟨h0, h100, fun _ => rfl⟩
  · intro total idle st hp hnoise
    have hc : ¬ (sub64 total st.last_total > 0 ∧
        sub64 idle st.last_idle ≤ sub64 total st.last_total) := by
      rcases hnoise with h | h <;> omega
    simp only [cpu_poll, Bool.true_or, hp, if_true, if_neg hc]

/-- Witness for C6 at concrete tick samples (first refresh seeds; a second
refresh with `total_delta = 100`, `idle_delta = 30` reports 70; a noisy
third sample keeps 70). -/
theorem c6_cpu_usage_percent_witness :
    (0 : ℚ) ≤ (cpu_state.mk 100 50 70 4 true).last_usage_percent ∧
      (cpu_state.mk 100 50 70 4 true).last_usage_percent ≤ 100 ∧
      (0 ≤ (cpu_poll (some (200, 80)) (cpu_state.mk 100 50 70 4 true) true).2.1.last_usage_percent ∧
        (cpu_poll (some (200, 80)) (cpu_state.mk 100 50 70 4 true) true).2.1.last_usage_percent ≤ 100 ∧
        ((cpu_poll (some (200, 80)) (cpu_state.mk 100 50 70 4 true) true).1 = .ok →
          (cpu_poll (some (200, 80)) (cpu_state.mk 100 50 70 4 true) true).2.2.head? =
            some ⟨"cpu.usage_percent", some "%",
              .f64 (cpu_poll (some (200, 80)) (cpu_state.mk 100 50 70 4 true) true).2.1.last_usage_percent⟩)) ∧
      ((cpu_state.mk 210 200 70 4 true).has_prev = true ∧
        (cpu_poll (some (215, 300)) (cpu_state.mk 210 200 70 4 true) true).2.1.last_usage_percent =
          (cpu_state.mk 210 200 70 4 true).last_usage_percent) :=
  ⟨by norm_num, by norm_num,
   c6_cpu_usage_percent.2.1 (some (200, 80)) (cpu_state.mk 100 50 70 4 true) true
     (by norm_num) (by norm_num),
   rfl,
   c6_cpu_usage_percent.2.2 215 300 (cpu_state.mk 210 200 70 4 true) rfl
     (Or.inr (by decide))⟩

/-! ## network: C7 -/

/-- C7: network rx/tx rates are never negative; a due refresh with a prior
sample divides the clamped byte delta by the wall-clock seconds elapsed
since the previous refresh; a counter that decreased contributes delta 0
(rate 0); and the first-ever refresh reports both rates as 0. -/
theorem c7_network_rates :
    (∀ (counters : Option (Nat × Nat)) (st : network_state) (now_ms : Nat)
        (refresh_now : Bool),
        0 ≤ st.last_rx_rate → 0 ≤ st.last_tx_rate →
        0 ≤ (network_poll counters st now_ms refresh_now).2.1.last_rx_rate ∧
          0 ≤ (network_poll counters st now_ms refresh_now).2.1.last_tx_rate) ∧
    (∀ (rx tx : Nat) (st : network_state) (now_ms : Nat),
        st.has_data = true → 0 < st.last_ts_ms → st.last_ts_ms < now_ms →
        now_ms < 2 ^ 64 →
        (network_poll (some (rx, tx)) st now_ms true).2.1.last_rx_rate =
            (((if rx ≥ st.last_rx_bytes then rx - st.last_rx_bytes else 0 : ℕ) : ℚ) /
              (((now_ms - st.last_ts_ms : ℕ) : ℚ) / 1000)) ∧
          (network_poll (some (rx, tx)) st now_ms true).2.1.last_tx_rate =
            (((if tx ≥ st.last_tx_bytes then tx - st.last_tx_bytes else 0 : ℕ) : ℚ) /
              (((now_ms - st.last_ts_ms : ℕ) : ℚ) / 1000)) ∧
          (rx < st.last_rx_bytes →
            (network_poll (some (rx, tx)) st now_ms true).2.1.last_rx_rate = 0)) ∧
    (∀ (rx tx : Nat) (st : network_state) (now_ms : Nat) (refresh_now : Bool),
        st.has_data = false →
        (network_poll (some (rx, tx)) st now_ms refresh_now).2.1.last_rx_rate = 0 ∧
          (network_poll (some (rx, tx)) st now_ms refresh_now).2.1.last_tx_rate = 0) := by
  have hseconds : ∀ (st : network_state) (now_ms : Nat), 0 < st.last_ts_ms →
      st.last_ts_ms < now_ms → now_ms < 2 ^ 64 →
      (0 : ℚ) < ((sub64 now_ms st.last_ts_ms : ℕ) : ℚ) / 1000 := by
    intro st now_ms h1 h2 h3
    rw [sub64_eq_sub (le_of_lt h2) h3]
    have : (0 : ℚ) < ((now_ms - st.last_ts_ms : ℕ) : ℚ) := by
      exact_mod_cast Nat.sub_pos_of_lt h2
    positivity
  refine ⟨?_, ?_, ?_⟩
  · intro counters st now_ms refresh_now hrx htx
    by_cases hr : (refresh_now || !st.has_data) = true
    · cases counters with
      | none => simp only [network_poll, hr, if_true]; exact ⟨hrx, htx⟩
      | some p =>
        obtain ⟨rx, tx⟩ := p
        simp only [network_poll, hr, if_true]
        by_cases hc : st.has_data = true ∧ 0 < st.last_ts_ms ∧ st.last_ts_ms < now_ms
        · simp only [if_pos hc]
          constructor <;> · dsimp only; split <;> positivity
        · simp only [if_neg hc]
          exact ⟨le_refl 0, le_refl 0⟩
    · simp only [network_poll, hr, if_false]
      exact ⟨hrx, htx⟩
  · intro rx tx st now_ms hd h1 h2 h3
    have hc : st.has_data = true ∧ 0 < st.last_ts_ms ∧ st.last_ts_ms < now_ms :=
      ⟨hd, h1, h2⟩
    have hsub : sub64 now_ms st.last_ts_ms = now_ms - st.last_ts_ms :=
      sub64_eq_sub (le_of_lt h2) h3
    have hs : (0 : ℚ) < ((now_ms - st.last_ts_ms : ℕ) : ℚ) / 1000 := by
      have := hseconds st now_ms h1 h2 h3
      rwa [hsub] at this
    simp only [network_poll, Bool.true_or, if_true, if_pos hc, hsub, if_pos hs]
    refine ⟨by trivial, by trivial, ?_⟩
    intro hlt
    rw [if_neg (by omega)]
    simp
  · intro rx tx st now_ms refresh_now hd
    simp [network_poll, hd]

/-- Witness for C7 at concrete counter samples: a prior sample at 5000 ms,
counters growing by 2000/1000 bytes over 2 s gives 1000/500 B/s rates; a
fresh state reports 0. -/
theorem c7_network_rates_witness :
    ((network_state.mk "eth0" false 1000 2000 5000 0 0 true).has_data = true ∧
      0 < (network_state.mk "eth0" false 1000 2000 5000 0 0 true).last_ts_ms ∧
      (network_state.mk "eth0" false 1000 2000 5000 0 0 true).last_ts_ms < 7000 ∧
      (7000 : Nat) < 2 ^ 64) ∧
      (network_poll (some (3000, 2500)) (network_state.mk "eth0" false 1000 2000 5000 0 0 true)
            7000 true).2.1.last_rx_rate =
        (((if (3000 : Nat) ≥ 1000 then 3000 - 1000 else 0 : ℕ) : ℚ) /
          (((7000 - 5000 : ℕ) : ℚ) / 1000)) ∧
      (network_poll (some (500, 2500)) (network_state.mk "eth0" false 1000 2000 5000 0 0 true)
            7000 true).2.1.last_rx_rate = 0 :=
  ⟨⟨rfl, by norm_num, by norm_num, by norm_num⟩,
   (c7_network_rates.2.1 3000 2500 (network_state.mk "eth0" false 1000 2000 5000 0 0 true)
      7000 rfl (by norm_num) (by norm_num) (by norm_num)).1,
   (c7_network_rates.2.1 500 2500 (network_state.mk "eth0" false 1000 2000 5000 0 0 true)
      7000 rfl (by norm_num) (by norm_num) (by norm_num)).2.2 (by norm_num)⟩

/-! ## storage: C8 -/

/-- C8: every storage refresh computes `used_bytes = total - free` clamped at
zero (from `free`, not `available`), and `used_percent = 100 * used / total`
with 0 when `total = 0`; an unconfigured `path` key defaults the probed path
to `"/"`. -/
theorem c8_storage_used (stats : Nat × Nat × Nat) (st : storage_state)
    (refresh_now : Bool) (hr : (refresh_now || !st.has_data) = true) :
    ((storage_poll (some stats) st refresh_now).2.1.last_used_bytes
        = stats.1 - stats.2.1) ∧
    (stats.1 = 0 → (storage_poll (some stats) st refresh_now).2.1.last_used_percent = 0) ∧
    (0 < stats.1 →
      (storage_poll (some stats) st refresh_now).2.1.last_used_percent =
        100 * ((storage_poll (some stats) st refresh_now).2.1.last_used_bytes : ℚ) /
          (stats.1 : ℚ)) ∧
    ((storage_poll (some stats) st refresh_now).2.2 =
        storage_emit (storage_poll (some stats) st refresh_now).2.1) ∧
    (∀ (ini : sysmon_ini) (sec : String) (st0 : storage_state),
        sysmon_ini_get ini sec "path" = none →
        storage_create ini sec true = (.ok, some st0) → st0.path = "/") := by
  obtain ⟨total, free_b, avail⟩ := stats
  simp only [storage_poll, hr, if_true]
  refine ⟨?_, ?_, ?_, by trivial, ?_⟩
  · dsimp only
    split <;> omega
  · intro h0
    subst h0
    norm_num
  · intro hpos
    have : ¬ (total = 0) := by omega
    simp only [if_pos hpos]
    ring
  · intro ini sec st0 hget hcr
    simp only [storage_create, hget, if_pos] at hcr
    have : st0 = ⟨"/", 0, 0, 0, 0, 0, false⟩ := by
      have := hcr
      injection this with h1 h2
      injection h2 with h2
      exact h2.symm
    rw [this]

/-! ## Engine loop: equations for `poll_one` and `poll_modules` -/

theorem poll_one_disabled {σ : Type} {now : Nat} {inst : sysmon_module_instance σ}
    (h : inst.enabled = false) : poll_one now inst = .skipped inst := by
  simp [poll_one, h]

theorem poll_one_eq_ok {σ : Type} {now : Nat} {inst : sysmon_module_instance σ}
    {st' : Option σ} {em : List sysmon_metric} {msg : Option String}
    (he : inst.enabled = true)
    (hr : inst.vtable.poll inst.state now (refresh_due inst now) = (.ok, st', em, msg)) :
    poll_one now inst =
      .continued
        { inst with
          state := st'
          last_refresh_ms := if refresh_due inst now then now else inst.last_refresh_ms }
        em ⟨inst.vtable.name, now, refresh_due inst now⟩ := by
  simp [poll_one, he, hr]

theorem poll_one_eq_oom {σ : Type} {now : Nat} {inst : sysmon_module_instance σ}
    {st' : Option σ} {em : List sysmon_metric} {msg : Option String}
    (he : inst.enabled = true)
    (hr : inst.vtable.poll inst.state now (refresh_due inst now)
        = (.out_of_memory, st', em, msg)) :
    poll_one now inst =
      .aborted { inst with state := st' } (msg.getD "out of memory")
        ⟨inst.vtable.name, now, refresh_due inst now⟩ := by
  simp [poll_one, he, hr]

theorem poll_one_eq_transient {σ : Type} {now : Nat} {inst : sysmon_module_instance σ}
    {rc : sysmon_result} {st' : Option σ} {em : List sysmon_metric} {msg : Option String}
    (he : inst.enabled = true)
    (hr : inst.vtable.poll inst.state now (refresh_due inst now) = (rc, st', em, msg))
    (h1 : rc ≠ .ok) (h2 : rc ≠ .out_of_memory) :
    poll_one now inst =
      .continued { inst with state := st' }
        (em ++ [module_error_metric inst.vtable.name (msg.getD "module error")])
        ⟨inst.vtable.name, now, refresh_due inst now⟩ := by
  simp [poll_one, he, hr, h1, h2]

theorem poll_modules_append {σ : Type} (now : Nat)
    (xs ys : List (sysmon_module_instance σ))
    (hxs : (poll_modules now xs).2.2.2 = none) :
    poll_modules now (xs ++ ys) =
      ((poll_modules now xs).1 ++ (poll_modules now ys).1,
       (poll_modules now xs).2.1 ++ (poll_modules now ys).2.1,
       (poll_modules now xs).2.2.1 ++ (poll_modules now ys).2.2.1,
       (poll_modules now ys).2.2.2) := by
  induction xs with
  | nil => simp [poll_modules]
  | cons inst xs ih =>
    cases hstep : poll_one now inst with
    | skipped inst' =>
      have hxs' : (poll_modules now xs).2.2.2 = none := by
        simpa [poll_modules, hstep] using hxs
      simp [poll_modules, hstep, ih hxs']
    | continued inst' em inv =>
      have hxs' : (poll_modules now xs).2.2.2 = none := by
        simpa [poll_modules, hstep] using hxs
      simp [poll_modules, hstep, ih hxs']
    | aborted inst' m inv =>
      exact absurd hxs (by simp [poll_modules, hstep])

theorem poll_modules_inv_now {σ : Type} (now : Nat) :
    ∀ (l : List (sysmon_module_instance σ)),
      ∀ inv ∈ (poll_modules now l).2.2.1, inv.now_ms = now := by
  intro l
  induction l with
  | nil => intro inv h; simp [poll_modules] at h
  | cons inst rest ih =>
    intro inv hinv
    by_cases he : inst.enabled = true
    · rcases hr : inst.vtable.poll inst.state now (refresh_due inst now)
        with ⟨rc, st', em, msg⟩
      by_cases hok : rc = .ok
      · subst hok
        simp only [poll_modules, poll_one_eq_ok he hr, List.mem_cons] at hinv
        rcases hinv with rfl | h
        · rfl
        · exact ih inv h
      · by_cases hoom : rc = .out_of_memory
        · subst hoom
          simp only [poll_modules, poll_one_eq_oom he hr, List.mem_singleton] at hinv
          subst hinv
          rfl
        · simp only [poll_modules, poll_one_eq_transient he hr hok hoom,
            List.mem_cons] at hinv
          rcases hinv with rfl | h
          · rfl
          · exact ih inv h
    · have he' : inst.enabled = false := by simpa using he
      simp only [poll_modules, poll_one_disabled he'] at hinv
      exact ih inv hinv

theorem poll_modules_metric_source {σ : Type} (now : Nat) :
    ∀ (l : List (sysmon_module_instance σ)) (m : sysmon_metric),
      m ∈ (poll_modules now l).2.1 →
      ∃ inst, inst ∈ l ∧ inst.enabled = true ∧
        ((∃ rc st' em msg,
            inst.vtable.poll inst.state now (refresh_due inst now) = (rc, st', em, msg) ∧
            m ∈ em) ∨
          ∃ msg, m = module_error_metric inst.vtable.name msg) := by
  intro l
  induction l with
  | nil => intro m hm; simp [poll_modules] at hm
  | cons inst rest ih =>
    intro m hm
    by_cases he : inst.enabled = true
    · rcases hr : inst.vtable.poll inst.state now (refresh_due inst now)
        with ⟨rc, st', em, msg⟩
      by_cases hok : rc = .ok
      · subst hok
        simp only [poll_modules, poll_one_eq_ok he hr, List.mem_append] at hm
        rcases hm with h | h
        · exact ⟨inst, by simp, he, Or.inl ⟨.ok, st', em, msg, hr, h⟩⟩
        · obtain ⟨inst', h1, h2, h3⟩ := ih m h
          exact ⟨inst', by simp [h1], h2, h3⟩
      · by_cases hoom : rc = .out_of_memory
        · subst hoom
          simp only [poll_modules, poll_one_eq_oom he hr, List.not_mem_nil] at hm
        · simp only [poll_modules, poll_one_eq_transient he hr hok hoom,
            List.append_assoc, List.mem_append, List.mem_singleton] at hm
          rcases hm with h | h | h
          · exact ⟨inst, by simp, he, Or.inl ⟨rc, st', em, msg, hr, h⟩⟩
          · exact ⟨inst, by simp, he, Or.inr ⟨msg.getD "module error", h⟩⟩
          · obtain ⟨inst', h1, h2, h3⟩ := ih m h
            exact ⟨inst', by simp [h1], h2, h3⟩
    · have he' : inst.enabled = false := by simpa using he
      simp only [poll_modules, poll_one_disabled he'] at hm
      obtain ⟨inst', h1, h2, h3⟩ := ih m hm
      exact ⟨inst', by simp [h1], h2, h3⟩

theorem not_battery_prefix (n msg : String) :
    str_starts_with "battery." (module_error_metric n msg).name = false := by
  cases n with
  | mk ndata =>
    show ("battery.".data.isPrefixOf
        (("module." ++ String.mk ndata ++ ".error").data)) = false
    rw [String.data_append, String.data_append]
    simp [List.isPrefixOf]

/-- Witness for C8: a refresh at `total = 1000`, `free = 300`,
`available = 200` yields `used = 700` and `used_percent = 70`. -/
theorem c8_storage_used_witness :
    ((true || !(storage_state.mk "/" 0 0 0 0 0 false).has_data) = true) ∧
      (storage_poll (some (1000, 300, 200)) (storage_state.mk "/" 0 0 0 0 0 false)
          true).2.1.last_used_bytes = 1000 - 300 ∧
      (storage_poll (some (1000, 300, 200)) (storage_state.mk "/" 0 0 0 0 0 false)
          true).2.1.last_used_percent =
        100 * ((storage_poll (some (1000, 300, 200)) (storage_state.mk "/" 0 0 0 0 0 false)
            true).2.1.last_used_bytes : ℚ) / ((1000 : ℕ) : ℚ) :=
  ⟨rfl,
   (c8_storage_used (1000, 300, 200) (storage_state.mk "/" 0 0 0 0 0 false) true rfl).1,
   (c8_storage_used (1000, 300, 200) (storage_state.mk "/" 0 0 0 0 0 false) true rfl).2.2.1
     (by norm_num)⟩

/-! ## C1: refresh cadence -/

/-- C1: one poll round takes the monotonic time once and every module poll
invocation receives that same `now`; the `refresh_due` flag is exactly
`refresh_ms = 0 ∨ no prior refresh ∨ now - last_refresh ≥ refresh_ms`; after
a successful poll `last_refresh` becomes `now` iff `refresh_due` held;
consequently within `r > 0` ms of the last refresh a module is polled with
`refresh_due = false` (so its source is re-read at most once per `r` ms and
a cache-stable module re-emits identical values, unchanged), while
`refresh_ms = 0` makes every round due. -/
theorem c1_refresh_cadence (σ : Type) :
    (∀ (s : sysmon σ) (now : Nat), ∀ inv ∈ (sysmon_poll s now).2.1, inv.now_ms = now) ∧
    (∀ (inst : sysmon_module_instance σ) (now : Nat),
        refresh_due inst now = true ↔
          (inst.refresh_ms = 0 ∨ inst.last_refresh_ms = 0 ∨
            inst.refresh_ms ≤ sub64 now inst.last_refresh_ms)) ∧
    (∀ (inst : sysmon_module_instance σ) (now : Nat) (st' : Option σ)
        (em : List sysmon_metric) (msg : Option String),
        inst.enabled = true →
        inst.vtable.poll inst.state now (refresh_due inst now) = (.ok, st', em, msg) →
        poll_one now inst =
          .continued
            { inst with
              state := st'
              last_refresh_ms := if refresh_due inst now then now
                                 else inst.last_refresh_ms }
            em ⟨inst.vtable.name, now, refresh_due inst now⟩) ∧
    (∀ (inst : sysmon_module_instance σ) (now : Nat),
        0 < inst.refresh_ms → 0 < inst.last_refresh_ms →
        inst.last_refresh_ms ≤ now → now < inst.last_refresh_ms + inst.refresh_ms →
        now < 2 ^ 64 → refresh_due inst now = false) ∧
    (∀ (inst : sysmon_module_instance σ) (now : Nat) (E : List sysmon_metric),
        inst.enabled = true → refresh_due inst now = false →
        inst.vtable.poll inst.state now false = (.ok, inst.state, E, none) →
        poll_one now inst = .continued inst E ⟨inst.vtable.name, now, false⟩) ∧
    (∀ (inst : sysmon_module_instance σ) (now : Nat), inst.refresh_ms = 0 →
        refresh_due inst now = true) := by
  refine ⟨?_, ?_, ?_, ?_, ?_, ?_⟩
  · intro s now inv hinv
    cases hab : (poll_modules now s.modules).2.2.2 with
    | none =>
      simp only [sysmon_poll, hab] at hinv
      exact poll_modules_inv_now now s.modules inv hinv
    | some msg =>
      simp only [sysmon_poll, hab] at hinv
      exact poll_modules_inv_now now s.modules inv hinv
  · intro inst now
    simp [refresh_due, or_assoc]
  · intro inst now st' em msg he hp
    exact poll_one_eq_ok he hp
  · intro inst now h1 h2 h3 h4 h5
    rw [refresh_due, sub64_eq_sub h3 h5]
    simp only [Bool.or_eq_false_iff, beq_eq_false_iff_ne, ne_eq,
      decide_eq_false_iff_not, not_le]
    omega
  · intro inst now E he hdue hp
    have h := poll_one_eq_ok he (by rw [hdue]; exact hp)
    simpa [hdue] using h
  · intro inst now h
    simp [refresh_due, h]

/-- Witness for C1 with `refresh_ms = 5`, `last_refresh = 10`, `now = 12`:
the module is not due, a cache-stable poll re-emits the cached metric and
leaves the instance unchanged; setting `refresh_ms = 0` makes it due. -/
theorem c1_refresh_cadence_witness :
    (0 < c1_test_inst.refresh_ms ∧ 0 < c1_test_inst.last_refresh_ms ∧
      c1_test_inst.last_refresh_ms ≤ 12 ∧
      12 < c1_test_inst.last_refresh_ms + c1_test_inst.refresh_ms ∧
      (12 : Nat) < 2 ^ 64) ∧
    refresh_due c1_test_inst 12 = false ∧
    poll_one 12 c1_test_inst =
      .continued c1_test_inst [⟨"m.x", none, .u64 1⟩] ⟨"m", 12, false⟩ ∧
    refresh_due { c1_test_inst with refresh_ms := 0 } 12 = true := by
  have thm := c1_refresh_cadence Unit
  have hdue : refresh_due c1_test_inst 12 = false :=
    thm.2.2.2.1 c1_test_inst 12 (by norm_num [c1_test_inst])
      (by norm_num [c1_test_inst]) (by norm_num [c1_test_inst])
      (by norm_num [c1_test_inst]) (by norm_num)
  refine ⟨⟨?_, ?_, ?_, ?_, ?_⟩, hdue, ?_, ?_⟩
  · norm_num [c1_test_inst]
  · norm_num [c1_test_inst]
  · norm_num [c1_test_inst]
  · norm_num [c1_test_inst]
  · norm_num
  · exact thm.2.2.2.2.1 c1_test_inst 12 [⟨"m.x", none, .u64 1⟩] rfl hdue rfl
  · exact thm.2.2.2.2.2 { c1_test_inst with refresh_ms := 0 } 12 rfl

/-! ## C4: disabled modules are invisible -/

/-- C4: a module instance with `enabled = false` is never polled (its `poll`
is never invoked, it is left untouched and contributes no metrics); every
metric of a produced snapshot is attributable to an enabled module (its own
emission or its synthetic error record); hence when every enabled module
emits no `battery.`-prefixed names — in particular when the battery module
is the disabled one — no snapshot metric name starts with `battery.`. -/
theorem c4_disabled_module_invisible (σ : Type) (s : sysmon σ) (now : Nat)
    (hns : ∀ inst ∈ s.modules, inst.enabled = true →
        ∀ (due : Bool) (rc : sysmon_result) (st' : Option σ)
          (em : List sysmon_metric) (msg : Option String),
          inst.vtable.poll inst.state now due = (rc, st', em, msg) →
          ∀ m ∈ em, str_starts_with "battery." m.name = false) :
    (∀ inst ∈ s.modules, inst.enabled = false → poll_one now inst = .skipped inst) ∧
    (∀ snap, (sysmon_poll s now).2.2 = .ok snap →
        ∀ m ∈ snap.metrics,
          ∃ inst, inst ∈ s.modules ∧ inst.enabled = true ∧
            ((∃ rc st' em msg,
                inst.vtable.poll inst.state now (refresh_due inst now)
                  = (rc, st', em, msg) ∧ m ∈ em) ∨
              ∃ msg, m = module_error_metric inst.vtable.name msg)) ∧
    (∀ snap, (sysmon_poll s now).2.2 = .ok snap →
        ∀ m ∈ snap.metrics, str_starts_with "battery." m.name = false) := by
  have hsnap_metrics : ∀ snap, (sysmon_poll s now).2.2 = .ok snap →
      snap.metrics = (poll_modules now s.modules).2.1 := by
    intro snap hsnap
    cases hab : (poll_modules now s.modules).2.2.2 with
    | none =>
      simp only [sysmon_poll, hab, Except.ok.injEq] at hsnap
      rw [← hsnap]
    | some msg =>
      simp only [sysmon_poll, hab] at hsnap
      exact Except.noConfusion hsnap
  refine ⟨?_, ?_, ?_⟩
  · intro inst _ hdis
    exact poll_one_disabled hdis
  · intro snap hsnap m hm
    rw [hsnap_metrics snap hsnap] at hm
    exact poll_modules_metric_source now s.modules m hm
  · intro snap hsnap m hm
    rw [hsnap_metrics snap hsnap] at hm
    obtain ⟨inst, hmem, hen, hsrc⟩ := poll_modules_metric_source now s.modules m hm
    rcases hsrc with ⟨rc, st', em, msg, hp, hmem'⟩ | ⟨msg, rfl⟩
    · exact hns inst hmem hen _ rc st' em msg hp m hmem'
    · exact not_battery_prefix inst.vtable.name msg

/-- Witness for C4: the two-module engine with battery disabled yields
snapshots with no `battery.`-prefixed metric, and its battery instance is
skipped. -/
theorem c4_disabled_module_invisible_witness :
    (∀ inst ∈ c4_test_engine.modules, inst.enabled = false →
        poll_one 5 inst = .skipped inst) ∧
    (∀ snap, (sysmon_poll c4_test_engine 5).2.2 = .ok snap →
        ∀ m ∈ snap.metrics, str_starts_with "battery." m.name = false) := by
  have hns : ∀ inst ∈ c4_test_engine.modules, inst.enabled = true →
      ∀ (due : Bool) (rc : sysmon_result) (st' : Option Unit)
        (em : List sysmon_metric) (msg : Option String),
        inst.vtable.poll inst.state 5 due = (rc, st', em, msg) →
        ∀ m ∈ em, str_starts_with "battery." m.name = false := by
    intro inst hmem
    simp only [c4_test_engine, List.mem_cons, List.not_mem_nil, or_false] at hmem
    rcases hmem with rfl | rfl
    · intro _ due rc st' em msg hp
      simp only [unit_vtable, Prod.mk.injEq] at hp
      obtain ⟨_, _, hem, _⟩ := hp
      subst hem
      intro m hm
      simp only [List.mem_singleton] at hm
      subst hm
      decide
    · intro habs
      exact absurd habs (by decide)
  have h := c4_disabled_module_invisible Unit c4_test_engine 5 hns
  exact ⟨h.1, h.2.2⟩

/-! ## C3: per-module failure isolation -/

/-- C3: in a poll round, an enabled module whose poll fails with a non-OOM
error and emits nothing contributes exactly one synthetic
`module.<name>.error` string metric to the snapshot; the round continues
through the remaining modules, the failing module's `last_refresh` is not
updated and it stays enabled; whereas an out-of-memory poll failure aborts
the round, discards the builder, and `sysmon_poll` returns the
out-of-memory error with no snapshot. -/
theorem c3_error_isolation (σ : Type) (s : sysmon σ) (now : Nat)
    (pre post : List (sysmon_module_instance σ)) (inst : sysmon_module_instance σ)
    (rc : sysmon_result) (st' : Option σ) (msg : Option String)
    (hmods : s.modules = pre ++ inst :: post)
    (hpre : (poll_modules now pre).2.2.2 = none)
    (hen : inst.enabled = true)
    (hp : inst.vtable.poll inst.state now (refresh_due inst now) = (rc, st', [], msg)) :
    (rc ≠ .ok → rc ≠ .out_of_memory →
      (poll_modules now s.modules).1 =
          (poll_modules now pre).1 ++
            { inst with state := st' } :: (poll_modules now post).1 ∧
      ({ inst with state := st' } : sysmon_module_instance σ).last_refresh_ms
          = inst.last_refresh_ms ∧
      ({ inst with state := st' } : sysmon_module_instance σ).enabled = true ∧
      (poll_modules now s.modules).2.1 =
          (poll_modules now pre).2.1 ++
            module_error_metric inst.vtable.name (msg.getD "module error") ::
              (poll_modules now post).2.1 ∧
      ((poll_modules now post).2.2.2 = none →
        (sysmon_poll s now).2.2 =
          .ok ⟨(poll_modules now pre).2.1 ++
            module_error_metric inst.vtable.name (msg.getD "module error") ::
              (poll_modules now post).2.1⟩)) ∧
    (rc = .out_of_memory → (sysmon_poll s now).2.2 = .error .out_of_memory) := by
  have happ := poll_modules_append now pre (inst :: post) hpre
  constructor
  · intro h1 h2
    have hstep := poll_one_eq_transient hen hp h1 h2
    have hcons1 : (poll_modules now (inst :: post)).1 =
        { inst with state := st' } :: (poll_modules now post).1 := by
      simp [poll_modules, hstep]
    have hcons2 : (poll_modules now (inst :: post)).2.1 =
        module_error_metric inst.vtable.name (msg.getD "module error") ::
          (poll_modules now post).2.1 := by
      simp [poll_modules, hstep]
    have hcons4 : (poll_modules now (inst :: post)).2.2.2 =
        (poll_modules now post).2.2.2 := by
      simp [poll_modules, hstep]
    refine ⟨?_, rfl, hen, ?_, ?_⟩
    · rw [hmods, happ, hcons1]
    · rw [hmods, happ, hcons2]
    · intro hpost
      have habn : (poll_modules now s.modules).2.2.2 = none := by
        rw [hmods, happ, hcons4, hpost]
      simp only [sysmon_poll, habn]
      rw [hmods, happ, hcons2]
  · intro hoom
    subst hoom
    have hstep := poll_one_eq_oom hen hp
    have habort : (poll_modules now (inst :: post)).2.2.2 =
        some (msg.getD "out of memory") := by
      simp [poll_modules, hstep]
    have hab : (poll_modules now s.modules).2.2.2 =
        some (msg.getD "out of memory") := by
      rw [hmods, happ, habort]
    simp only [sysmon_poll, hab]

/-- Witness for C3: with `cpu` healthy, `net` failing with `IO` and emitting
nothing, and `ram` healthy, the round produces a snapshot containing cpu's
metric, one `module.net.error` record, and ram's metric; with `net` failing
with out-of-memory, the round returns the error and no snapshot. -/
theorem c3_error_isolation_witness :
    (sysmon_poll c3_test_engine 7).2.2 =
      .ok ⟨(poll_modules 7 [c3_cpu_inst]).2.1 ++
        module_error_metric "net" "boom" :: (poll_modules 7 [c3_ram_inst]).2.1⟩ ∧
    (sysmon_poll c3_oom_engine 7).2.2 = .error .out_of_memory := by
  constructor
  · exact ((c3_error_isolation Unit c3_test_engine 7 [c3_cpu_inst] [c3_ram_inst]
      c3_net_inst .io (some ()) (some "boom") rfl rfl rfl rfl).1
        (by decide) (by decide)).2.2.2.2 rfl
  · exact (c3_error_isolation Unit c3_oom_engine 7 [c3_cpu_inst] [c3_ram_inst]
      ⟨failing_vtable "net" .out_of_memory, some (), true, 0, 0⟩ .out_of_memory
      (some ()) (some "boom") rfl rfl rfl rfl).2 rfl

/-! ## C5: engine construction failure policy -/

theorem init_one_not_supported {σ : Type} {ini : sysmon_ini}
    {vt : sysmon_module_vtable σ} {stO : Option σ} {msg : Option String}
    (hok : (sysmon_ini_get_u32 ini ("module." ++ vt.name) "refresh_ms" 0).2 = true)
    (hen : sysmon_ini_get_bool ini ("module." ++ vt.name) "enabled" true = true)
    (hcr : vt.create ini ("module." ++ vt.name) = (.not_supported, stO, msg)) :
    init_one ini vt =
      .ok ⟨vt, none, false,
        (sysmon_ini_get_u32 ini ("module." ++ vt.name) "refresh_ms" 0).1, 0⟩ := by
  simp [init_one, hok, hen, hcr]

theorem init_one_parse_fail {σ : Type} {ini : sysmon_ini} {vt : sysmon_module_vtable σ}
    (hok : (sysmon_ini_get_u32 ini ("module." ++ vt.name) "refresh_ms" 0).2 = false) :
    init_one ini vt = .error (.parse, "invalid refresh_ms (must be uint32)") := by
  simp [init_one, hok]

theorem init_one_create_fail {σ : Type} {ini : sysmon_ini}
    {vt : sysmon_module_vtable σ} {rc : sysmon_result} {stO : Option σ}
    {msg : Option String}
    (hok : (sysmon_ini_get_u32 ini ("module." ++ vt.name) "refresh_ms" 0).2 = true)
    (hen : sysmon_ini_get_bool ini ("module." ++ vt.name) "enabled" true = true)
    (hcr : vt.create ini ("module." ++ vt.name) = (rc, stO, msg))
    (h1 : rc ≠ .not_supported) (h2 : rc ≠ .ok) :
    init_one ini vt = .error (rc, msg.getD "module create failed") := by
  simp [init_one, hok, hen, hcr, h1, h2]

theorem init_modules_append_ok {σ : Type} {ini : sysmon_ini}
    {xs : List (sysmon_module_vtable σ)} {xsI : List (sysmon_module_instance σ)}
    (ys : List (sysmon_module_vtable σ))
    (hxs : init_modules ini xs = .ok xsI) :
    init_modules ini (xs ++ ys) =
      match init_modules ini ys with
      | .ok ysI => .ok (xsI ++ ysI)
      | .error e => .error e := by
  induction xs generalizing xsI with
  | nil =>
    simp only [init_modules, Except.ok.injEq] at hxs
    subst hxs
    cases h : init_modules ini ys <;> simp [h]
  | cons vt xs ih =>
    cases hi : init_one ini vt with
    | error e =>
      rw [init_modules, hi] at hxs
      exact absurd hxs (by simp [Bind.bind, Except.bind])
    | ok i =>
      cases ht : init_modules ini xs with
      | error e =>
        rw [init_modules, hi, ht] at hxs
        exact absurd hxs (by simp [Bind.bind, Except.bind])
      | ok tl =>
        rw [init_modules, hi, ht] at hxs
        simp only [Bind.bind, Except.bind, Except.ok.injEq] at hxs
        subst hxs
        show init_modules ini (vt :: (xs ++ ys)) = _
        rw [init_modules, hi, ih ht]
        cases h : init_modules ini ys <;> simp [Bind.bind, Except.bind]

theorem init_modules_cons_error {σ : Type} {ini : sysmon_ini}
    {vt : sysmon_module_vtable σ} {e : sysmon_result × String}
    (post : List (sysmon_module_vtable σ))
    (hi : init_one ini vt = .error e) :
    init_modules ini (vt :: post) = .error e := by
  rw [init_modules, hi]
  simp [Bind.bind, Except.bind]

theorem sysmon_create_error {σ : Type} {ini : sysmon_ini}
    {builtins : List (sysmon_module_vtable σ)} {e : sysmon_result × String}
    {cfg : Nat}
    (hne : builtins.isEmpty = false)
    (hcfg : sysmon_config_load_from_ini ini = .ok cfg)
    (hinit : init_modules ini builtins = .error e) :
    sysmon_create ini builtins = .error e := by
  simp [sysmon_create, hne, hcfg, hinit, Bind.bind, Except.bind]

/-- C5: a module `create` returning the distinguished `NotSupported` outcome
only demotes that module to `enabled = false` and engine construction
continues through the remaining variants; a `refresh_ms` value that fails to
parse as a `uint32` aborts construction with a `Parse` error and yields no
engine; and any other module-create failure aborts construction with that
error and yields no engine. -/
theorem c5_construction_failure_policy (σ : Type) (ini : sysmon_ini)
    (pre post : List (sysmon_module_vtable σ)) (vt : sysmon_module_vtable σ) :
    (∀ (preI postI : List (sysmon_module_instance σ)) (stO : Option σ)
        (msg : Option String),
      init_modules ini pre = .ok preI →
      init_modules ini post = .ok postI →
      (sysmon_ini_get_u32 ini ("module." ++ vt.name) "refresh_ms" 0).2 = true →
      sysmon_ini_get_bool ini ("module." ++ vt.name) "enabled" true = true →
      vt.create ini ("module." ++ vt.name) = (.not_supported, stO, msg) →
      init_modules ini (pre ++ vt :: post) =
        .ok (preI ++
          ⟨vt, none, false,
            (sysmon_ini_get_u32 ini ("module." ++ vt.name) "refresh_ms" 0).1, 0⟩ ::
          postI)) ∧
    (∀ (preI : List (sysmon_module_instance σ)) (cfg : Nat),
      init_modules ini pre = .ok preI →
      sysmon_config_load_from_ini ini = .ok cfg →
      (sysmon_ini_get_u32 ini ("module." ++ vt.name) "refresh_ms" 0).2 = false →
      init_modules ini (pre ++ vt :: post) =
          .error (.parse, "invalid refresh_ms (must be uint32)") ∧
        sysmon_create ini (pre ++ vt :: post) =
          .error (.parse, "invalid refresh_ms (must be uint32)")) ∧
    (∀ (preI : List (sysmon_module_instance σ)) (cfg : Nat) (rc : sysmon_result)
        (stO : Option σ) (msg : Option String),
      init_modules ini pre = .ok preI →
      sysmon_config_load_from_ini ini = .ok cfg →
      (sysmon_ini_get_u32 ini ("module." ++ vt.name) "refresh_ms" 0).2 = true →
      sysmon_ini_get_bool ini ("module." ++ vt.name) "enabled" true = true →
      vt.create ini ("module." ++ vt.name) = (rc, stO, msg) →
      rc ≠ .not_supported → rc ≠ .ok →
      init_modules ini (pre ++ vt :: post) =
          .error (rc, msg.getD "module create failed") ∧
        sysmon_create ini (pre ++ vt :: post) =
          .error (rc, msg.getD "module create failed")) := by
  have hne : (pre ++ vt :: post).isEmpty = false := by
    cases pre <;> rfl
  refine ⟨?_, ?_, ?_⟩
  · intro preI postI stO msg hpre hpost hok hen hcr
    rw [init_modules_append_ok (vt :: post) hpre]
    rw [init_modules, init_one_not_supported hok hen hcr, hpost]
    simp [Bind.bind, Except.bind]
  · intro preI cfg hpre hcfg hok
    have herr : init_modules ini (pre ++ vt :: post) =
        .error (.parse, "invalid refresh_ms (must be uint32)") := by
      rw [init_modules_append_ok (vt :: post) hpre,
        init_modules_cons_error post (init_one_parse_fail hok)]
    exact ⟨herr, sysmon_create_error hne hcfg herr⟩
  · intro preI cfg rc stO msg hpre hcfg hok hen hcr h1 h2
    have herr : init_modules ini (pre ++ vt :: post) =
        .error (rc, msg.getD "module create failed") := by
      rw [init_modules_append_ok (vt :: post) hpre,
        init_modules_cons_error post (init_one_create_fail hok hen hcr h1 h2)]
    exact ⟨herr, sysmon_create_error hne hcfg herr⟩

/-- Witness for C5: a not-supported battery demotes to disabled with an
empty ini; `refresh_ms = "abc"` aborts `sysmon_create` with a Parse error;
a hard create failure aborts with that error. -/
theorem c5_construction_failure_policy_witness :
    (init_modules ([] : sysmon_ini) [ns_vtable "battery"] =
        .ok [⟨ns_vtable "battery", none, false, 0, 0⟩]) ∧
    (sysmon_create [⟨"module.m", "refresh_ms", "abc"⟩] [unit_vtable "m" []] =
        .error (.parse, "invalid refresh_ms (must be uint32)")) ∧
    (sysmon_create ([] : sysmon_ini) [bad_create_vtable "x"] =
        .error (.io, "create failed")) := by
  refine ⟨?_, ?_, ?_⟩
  · have h := (c5_construction_failure_policy Unit [] [] []
      (ns_vtable "battery")).1 [] [] none (some "nope") rfl rfl rfl rfl rfl
    simpa using h
  · have h := (c5_construction_failure_policy Unit
      [⟨"module.m", "refresh_ms", "abc"⟩] [] [] (unit_vtable "m" [])).2.1
      [] 1000 rfl rfl (by decide)
    simpa using h.2
  · have h := (c5_construction_failure_policy Unit [] [] []
      (bad_create_vtable "x")).2.2 [] 1000 .io none (some "create failed")
      rfl rfl rfl rfl rfl (by decide) (by decide)
    simpa using h.2

end Sysmon
